import Mathlib

/-!
Verification development for the mediaAI repository
(src/tunein_api.py and src/mediaAI.py).

Modelling conventions:
* a Python `str` is a `List Char` of Unicode code points;
* a Python `bytes` is a `List Nat` with entries below 256;
* a raised Python exception is `none` / `Except.error`;
* the HTTP transport (`requests`) and the XML parser (`xml.etree.ElementTree`)
  are external collaborators, modelled as explicit inputs.
-/

namespace MediaAI

/-- Python `str.startswith(pat)`: `pat` is an initial segment of the string.
Used at tunein_api.py lines 98, 101, 103 and 106. -/
def pyStartsWith : List Char → List Char → Bool
  | [], _ => true
  | _ :: _, [] => false
  | p :: ps, c :: cs => p == c && pyStartsWith ps cs

/-- Python substring membership (`pat in s`): `pat` occurs contiguously in `s`. -/
def pyContains (pat : List Char) : List Char → Bool
  | [] => pat.isEmpty
  | c :: rest => pyStartsWith pat (c :: rest) || pyContains pat rest

/-- The line-boundary characters recognised by Python `str.splitlines`. -/
def isLineBreakChar (c : Char) : Bool :=
  c == '\n' || c == '\r' || c == '\x0b' || c == '\x0c' ||
  c == '\x1c' || c == '\x1d' || c == '\x1e' || c == '\x85' ||
  c == '\u2028' || c == '\u2029'

/-- Worker for `pySplitlines`; `acc` is the current line, reversed. -/
def pySplitlinesGo (acc : List Char) : List Char → List (List Char)
  | [] => if acc.isEmpty then [] else [acc.reverse]
  | '\r' :: '\n' :: rest => acc.reverse :: pySplitlinesGo [] rest
  | c :: rest =>
    if isLineBreakChar c then acc.reverse :: pySplitlinesGo [] rest
    else pySplitlinesGo (c :: acc) rest

/-- Python `str.splitlines()`: split at line boundaries, `\r\n` counting as a
single boundary, with no trailing empty line for a trailing terminator.
Used at tunein_api.py lines 100 and 105. -/
def pySplitlines (s : List Char) : List (List Char) :=
  pySplitlinesGo [] s

def extm3uMarker : List Char := "#EXTM3U".data

def hashMarker : List Char := "#".data

def plsMarker : List Char := "[playlist]".data

def file1Marker : List Char := "File1=".data

/-- The loop test of tunein_api.py line 101: `if line and not line.startswith("#")`. -/
def m3uLineHit (l : List Char) : Bool :=
  !l.isEmpty && !pyStartsWith hashMarker l

/-- The loop test of tunein_api.py line 106: `if line.startswith("File1=")`. -/
def plsLineHit (l : List Char) : Bool :=
  pyStartsWith file1Marker l

/-- Python `line.split("=", 1)[1]` (tunein_api.py line 107): everything after
the first `=`.  At its only call site the line is guarded by
`startswith("File1=")`, so a `=` is always present and index `[1]` exists. -/
def pySplitEqTail (l : List Char) : List Char :=
  (l.dropWhile fun c => !(c == '=')).drop 1

/-- tunein_api.py lines 96-108 (`TuneInAPI.resolve_stream_url`) after the
UTF-8 decode of line 97: playlist sniffing on the decoded text.  Each Python
`for`-with-`return` loop over `splitlines()` is the first hit of
`List.find?`; falling out of a loop reaches `return content_str`. -/
def resolve_stream_url (s : List Char) : List Char :=
  if pyStartsWith extm3uMarker s then
    match (pySplitlines s).find? m3uLineHit with
    | some l => l
    | none => s
  else if pyStartsWith plsMarker s then
    match (pySplitlines s).find? plsLineHit with
    | some l => pySplitEqTail l
    | none => s
  else s

/-- A UTF-8 continuation byte, `0x80..0xBF`. -/
def utf8Cont (b : Nat) : Bool :=
  0x80 ≤ b && b < 0xC0

/-- Strict UTF-8 decoding, one byte per step.  The first argument is the
decoder state: `none` between characters, `some (need, minv, acc)` inside a
multi-byte sequence still expecting `need` continuation bytes, with partial
value `acc` and minimal legal final value `minv` (the overlong bound fixed by
the lead byte).  Rejects stray continuation bytes, truncated and overlong
sequences, surrogates and values above U+10FFFF, as CPython's strict
`bytes.decode("utf-8")`. -/
def utf8Run : Option (Nat × Nat × Nat) → List Nat → Option (List Char)
  | none, [] => some []
  | some _, [] => none
  | none, b :: bs =>
    if b < 0x80 then (utf8Run none bs).map fun cs => Char.ofNat b :: cs
    else if b < 0xC0 then none
    else if b < 0xE0 then utf8Run (some (1, 0x80, b - 0xC0)) bs
    else if b < 0xF0 then utf8Run (some (2, 0x800, b - 0xE0)) bs
    else if b < 0xF8 then utf8Run (some (3, 0x10000, b - 0xF0)) bs
    else none
  | some (need, minv, acc), b :: bs =>
    if utf8Cont b then
      if need = 1 then
        if minv ≤ acc * 0x40 + (b - 0x80) ∧
           (acc * 0x40 + (b - 0x80) < 0xD800 ∨ 0xE000 ≤ acc * 0x40 + (b - 0x80)) ∧
           acc * 0x40 + (b - 0x80) < 0x110000 then
          (utf8Run none bs).map fun cs => Char.ofNat (acc * 0x40 + (b - 0x80)) :: cs
        else none
      else utf8Run (some (need - 1, minv, acc * 0x40 + (b - 0x80))) bs
    else none

/-- Python `bytes.decode("utf-8")` (tunein_api.py line 97); `none` models a
raised `UnicodeDecodeError`. -/
def pyDecodeUtf8 (bs : List Nat) : Option (List Char) :=
  utf8Run none bs

/-- UTF-8 encoding of one code point. -/
def utf8EncodeChar (n : Nat) : List Nat :=
  if n < 0x80 then [n]
  else if n < 0x800 then [0xC0 + n / 0x40, 0x80 + n % 0x40]
  else if n < 0x10000 then
    [0xE0 + n / 0x1000, 0x80 + n / 0x40 % 0x40, 0x80 + n % 0x40]
  else
    [0xF0 + n / 0x40000, 0x80 + n / 0x1000 % 0x40, 0x80 + n / 0x40 % 0x40, 0x80 + n % 0x40]

/-- Python `str.encode("utf-8")`. -/
def pyEncodeUtf8 (s : List Char) : List Nat :=
  s.foldr (fun c acc => utf8EncodeChar c.toNat ++ acc) []

/-- tunein_api.py lines 86-108, `TuneInAPI.resolve_stream_url` on its raw
`bytes` argument: line 97 `content.decode("utf-8")` may raise (`none`);
afterwards the pure sniffing of `resolve_stream_url` runs. -/
def resolve_stream_url_bytes (bs : List Nat) : Option (List Char) :=
  (pyDecodeUtf8 bs).map resolve_stream_url

def example1Text : List Char := "#EXTM3U\n#EXTINF:-1,Station\nhttp://stream.example/live.mp3\n".data

def example1Line1 : List Char := "#EXTM3U".data

def example1Line2 : List Char := "#EXTINF:-1,Station".data

def example1Url : List Char := "http://stream.example/live.mp3".data

def example2Text : List Char := "[playlist]\nNumberOfEntries=1\nFile1=http://stream.example/live2.mp3\n".data

def example2Line1 : List Char := "[playlist]".data

def example2Line2 : List Char := "NumberOfEntries=1".data

def example2FileLine : List Char := "File1=http://stream.example/live2.mp3".data

def example2Url : List Char := "http://stream.example/live2.mp3".data

def example3Text : List Char := "http://stream.example/direct.mp3".data

def plainUrl : List Char := "http://a.example/s.mp3".data

/-- The byte `0xFF` can occur in no UTF-8 sequence. -/
def invalidUtf8Input : List Nat := [0xFF]

def outlineTag : List Char := "outline".data

def typeKey : List Char := "type".data

def audioVal : List Char := "audio".data

def textKey : List Char := "text".data

def urlKey : List Char := "URL".data

def bitrateKey : List Char := "bitrate".data

def reliabilityKey : List Char := "reliability".data

def guideIdKey : List Char := "guide_id".data

def subtextKey : List Char := "subtext".data

def genreIdKey : List Char := "genre_id".data

def formatsKey : List Char := "formats".data

def itemKey : List Char := "item".data

def imageKey : List Char := "image".data

def currentTrackKey : List Char := "current_track".data

def nowPlayingIdKey : List Char := "now_playing_id".data

def presetIdKey : List Char := "preset_id".data

mutual

/-- An XML element as parsed by `xml.etree.ElementTree`: tag, attributes and
child elements (non-element content is irrelevant to tunein_api.py). -/
inductive Xml where
  | elem (tag : List Char) (attrs : List (List Char × List Char)) (children : XmlForest)

/-- Sibling elements; a separate type so recursion over the tree stays
structural. -/
inductive XmlForest where
  | nil
  | cons (head : Xml) (tail : XmlForest)
end

def Xml.tag : Xml → List Char
  | .elem t _ _ => t

def Xml.attrs : Xml → List (List Char × List Char)
  | .elem _ a _ => a

mutual

/-- All proper descendants of an element, in document order — the elements
scanned by ElementTree `findall(".//...")`. -/
def Xml.descendants : Xml → List Xml
  | .elem _ _ cs => XmlForest.descList cs

def XmlForest.descList : XmlForest → List Xml
  | .nil => []
  | .cons c cs => c :: (Xml.descendants c ++ XmlForest.descList cs)
end

/-- ElementTree `element.get(key)`: attribute lookup, `None` when absent. -/
def getAttr (attrs : List (List Char × List Char)) (k : List Char) : Option (List Char) :=
  (attrs.find? fun p => p.1 == k).map fun p => p.2

/-- The station dictionary built at tunein_api.py lines 68-82; every field is
an attribute value or `None`. -/
structure Station where
  text : Option (List Char)
  URL : Option (List Char)
  bitrate : Option (List Char)
  reliability : Option (List Char)
  guide_id : Option (List Char)
  subtext : Option (List Char)
  genre_id : Option (List Char)
  formats : Option (List Char)
  item : Option (List Char)
  image : Option (List Char)
  current_track : Option (List Char)
  now_playing_id : Option (List Char)
  preset_id : Option (List Char)
deriving DecidableEq

/-- The match test of the ElementTree path `.//outline[@type='audio']`
(tunein_api.py line 67). -/
def isAudioOutline (e : Xml) : Bool :=
  e.tag == outlineTag && getAttr e.attrs typeKey == some audioVal

/-- One loop body iteration of tunein_api.py lines 67-83: the dictionary of
the thirteen enumerated attributes, each copied by `outline.get(...)`. -/
def stationOfOutline (e : Xml) : Station where
  text := getAttr e.attrs textKey
  URL := getAttr e.attrs urlKey
  bitrate := getAttr e.attrs bitrateKey
  reliability := getAttr e.attrs reliabilityKey
  guide_id := getAttr e.attrs guideIdKey
  subtext := getAttr e.attrs subtextKey
  genre_id := getAttr e.attrs genreIdKey
  formats := getAttr e.attrs formatsKey
  item := getAttr e.attrs itemKey
  image := getAttr e.attrs imageKey
  current_track := getAttr e.attrs currentTrackKey
  now_playing_id := getAttr e.attrs nowPlayingIdKey
  preset_id := getAttr e.attrs presetIdKey

/-- tunein_api.py lines 55-84 (`TuneInAPI.parse_xml`), given the root element
returned by `ET.fromstring`: one station per `.//outline[@type='audio']`
match, in document order. -/
def parse_xml (root : Xml) : List Station :=
  ((Xml.descendants root).filter isAudioOutline).map stationOfOutline

/-- Outcome of `requests.get` at tunein_api.py line 22: either a raised
`requests.RequestException` (network failure), or an HTTP response with a
status code and body bytes. -/
inductive HttpOutcome where
  | failure
  | response (status : Nat) (body : List Nat)

/-- A Python exception escaping `search_stations`: `xml.etree.ElementTree.ParseError`
is not a `requests.RequestException`, so the handler at line 30 does not
catch it. -/
inductive PyError where
  | parseError
deriving DecidableEq

/-- Observable outcome of one `search_stations` call: its return value (or
escaped exception) and the bytes written to `response_content.xml` at lines
26-27, if that write ran. -/
structure SearchOutcome where
  result : Except PyError (List Station)
  responseFileWritten : Option (List Nat)

/-- tunein_api.py lines 20-32 (`TuneInAPI.search_stations`): `raise_for_status`
(line 24) raises `HTTPError` — a `RequestException`, caught at line 30 — for
status 4xx/5xx; otherwise the body is dumped to `response_content.xml`
(lines 26-27) and parsed (line 29 via `ET.fromstring`, whose failure is
not caught).  `query` only forms the request URL.  `fromstring` is the
external XML parser applied to the body. -/
def search_stations (query : List Char) (fromstring : List Nat → Except Unit Xml) :
    HttpOutcome → SearchOutcome
  | .failure => ⟨.ok [], none⟩
  | .response status body =>
    if 400 ≤ status ∧ status < 600 then ⟨.ok [], none⟩
    else
      match fromstring body with
      | .ok root => ⟨.ok (parse_xml root), some body⟩
      | .error _ => ⟨.error .parseError, some body⟩

/-- `ET.fromstring` on a body that is not well-formed XML: raises
`ParseError`. -/
def failingFromstring : List Nat → Except Unit Xml :=
  fun _ => .error ()

def malformedXmlBody : List Nat :=
  "not xml".data.map Char.toNat

def opmlTag : List Char := "opml".data

def xTextVal : List Char := "X".data

def uUrlVal : List Char := "u".data

def example4Outline : Xml :=
  Xml.elem outlineTag [(typeKey, audioVal), (textKey, xTextVal), (urlKey, uUrlVal)] XmlForest.nil

def example4Root : Xml :=
  Xml.elem opmlTag [] (XmlForest.cons example4Outline XmlForest.nil)

/-- A JSON value as produced by Python `json.load`.  Numbers are exact
rationals: the settings file only ever holds 0-1 volume floats, rate floats
and small integers, all exactly representable. -/
inductive JVal where
  | jnum (q : ℚ)
  | jstr (s : List Char)
  | jbool (b : Bool)
  | jnull
deriving DecidableEq

/-- Python `dict.get(key, default)` on a parsed JSON object (keys are unique
after `json.load`). -/
def jget (entries : List (List Char × JVal)) (k : List Char) (d : JVal) : JVal :=
  match entries.find? (fun p => p.1 == k) with
  | some p => p.2
  | none => d

def volumeKey : List Char := "volume".data

def playbackRateKey : List Char := "playbackRate".data

def channelIndexKey : List Char := "currentChannelIndex".data

def isPlayingKey : List Char := "isPlaying".data

def categoryKey : List Char := "currentCategory".data

def classicalCategory : List Char := "classical".data

/-- The five persisted player settings (the JSON object written at
mediaAI.py lines 284-290). -/
structure PlayerSettings where
  volume : JVal
  playbackRate : JVal
  currentChannelIndex : JVal
  isPlaying : JVal
  currentCategory : JVal
deriving DecidableEq

/-- Outcome of opening and parsing `settings.json` at mediaAI.py lines
299-300: absent (`open` raises `FileNotFoundError`), present but not valid
JSON (`json.load` raises `json.JSONDecodeError`), or a parsed JSON object. -/
inductive SettingsFile where
  | absent
  | corrupt
  | object (entries : List (List Char × JVal))

/-- A Python exception escaping `load_settings` — the handler at line 322
catches only `FileNotFoundError`: `json.JSONDecodeError` (a `ValueError`)
from line 300, and `TypeError` or `IndexError` from the list indexing
`self.channels[self.current_channel_index]` at line 314, all propagate. -/
inductive SettingsError where
  | jsonDecodeError
  | typeError
  | indexError
deriving DecidableEq

/-- Python list indexing `l[i]` with an `int` index: a negative index counts
from the end; an index out of range raises `IndexError` (`none`). -/
def pyListGet (l : List Station) (i : Int) : Option Station :=
  if i < 0 then
    if 0 ≤ i + l.length then l.get? (i + l.length).toNat else none
  else l.get? i.toNat

/-- A JSON value used as a Python list index: integers index (and so do
booleans, which are ints in Python); floats, strings and null raise
`TypeError` (`none`). -/
def jvalAsIndex : JVal → Option Int
  | .jnum q => if q.den = 1 then some q.num else none
  | .jbool b => some (if b then 1 else 0)
  | .jstr _ => none
  | .jnull => none

/-- The settings state established by `__init__` before `load_settings` runs
at line 82: volume 0.5 (line 28), playback rate 1.0 (the `QMediaPlayer`
default), channel index 0 (line 76), not playing (line 81), category
"classical" (line 55, first combo-box item). -/
def initSettings : PlayerSettings where
  volume := JVal.jnum (1/2)
  playbackRate := JVal.jnum 1
  currentChannelIndex := JVal.jnum 0
  isPlaying := JVal.jbool false
  currentCategory := JVal.jstr classicalCategory

/-- The documented defaults of the spec: volume 0.5, rate 1.0, index 0, not
playing, category = first enumerated genre ("classical"). -/
def defaultSettings : PlayerSettings where
  volume := JVal.jnum (1/2)
  playbackRate := JVal.jnum 1
  currentChannelIndex := JVal.jnum 0
  isPlaying := JVal.jbool false
  currentCategory := JVal.jstr classicalCategory

/-- mediaAI.py lines 294-326 (`load_settings`): per-key
`settings.get(key, default)` (lines 301-305) on a parsed object, after which
— still inside the same `try` — line 312 refetches stations for the saved
category and line 314 indexes `self.channels[self.current_channel_index]`.
`fetched` is the result of that `get_tunein_stations` call (it is total:
lines 126-128 catch every exception and return `[]`); the indexing may raise
an uncaught `TypeError` or `IndexError`.  On `FileNotFoundError` the handler
at lines 322-326 resets the category index, channel index and volume,
leaving rate and play state at their `init` values, and performs no fetch.
Only `FileNotFoundError` is caught, so a corrupt file raises.  The UI and
file-write side effects of lines 307-321 do not raise and are outside this
model. -/
def load_settings (init : PlayerSettings) (fetched : List Station) :
    SettingsFile → Except SettingsError PlayerSettings
  | .absent =>
    .ok { init with
      volume := JVal.jnum (1/2)
      currentChannelIndex := JVal.jnum 0
      currentCategory := JVal.jstr classicalCategory }
  | .corrupt => .error .jsonDecodeError
  | .object entries =>
    match jvalAsIndex (jget entries channelIndexKey (JVal.jnum 0)) with
    | none => .error .typeError
    | some i =>
      match pyListGet fetched i with
      | none => .error .indexError
      | some _ =>
        .ok { volume := jget entries volumeKey (JVal.jnum (1/2))
              playbackRate := jget entries playbackRateKey (JVal.jnum 1)
              currentChannelIndex := jget entries channelIndexKey (JVal.jnum 0)
              isPlaying := jget entries isPlayingKey (JVal.jbool false)
              currentCategory := jget entries categoryKey (JVal.jstr classicalCategory) }

/-- An observable routing action of the player. -/
inductive PlayerAction where
  | playNoise
  | setChannel (url : Option (List Char))
  | showError (msg : List Char)
deriving DecidableEq

def noChannelsMsg : List Char := "No channels found".data

def indexErrorMsg : List Char := "list index out of range".data

/-- mediaAI.py lines 139-154 (`category_selected`): after the freshly fetched
list is installed in the combo box, an empty list routes to `play_noise`
(line 154); otherwise the first station's URL goes to `set_channel`
(line 150). -/
def category_selected (channels : List Station) : PlayerAction :=
  match channels with
  | [] => .playNoise
  | c :: _ => .setChannel c.URL

/-- mediaAI.py lines 84-92 (initial load in `__init__`): an empty list makes
line 88 raise `ValueError("No channels found")`; an out-of-range saved index
makes line 90 raise `IndexError`; both are caught at line 91 and surfaced via
`show_error_message` — not via noise playback.  Otherwise the station at the
saved index is handed to `set_channel`. -/
def initialChannelLoad (channels : List Station) (idx : Nat) : PlayerAction :=
  match channels with
  | [] => .showError noChannelsMsg
  | _ :: _ =>
    match channels.get? idx with
    | some st => .setChannel st.URL
    | none => .showError indexErrorMsg

theorem utf8Run_encodeChar (c : Char) (bs : List Nat) :
    utf8Run none (utf8EncodeChar c.toNat ++ bs) =
      (utf8Run none bs).map fun cs => c :: cs := by
  have hv : c.toNat < 0xD800 ∨ (0xDFFF < c.toNat ∧ c.toNat < 0x110000) := c.valid
  have hofn : Char.ofNat c.toNat = c := Char.ofNat_toNat c
  by_cases h1 : c.toNat < 0x80
  · rw [utf8EncodeChar, if_pos h1, List.cons_append, List.nil_append]
    rw [utf8Run, if_pos h1, hofn]
  · by_cases h2 : c.toNat < 0x800
    · rw [utf8EncodeChar, if_neg h1, if_pos h2, List.cons_append, List.cons_append,
        List.nil_append]
      rw [utf8Run, if_neg (by omega), if_neg (by omega), if_pos (by omega)]
      rw [utf8Run, if_pos (by simp only [utf8Cont, Bool.and_eq_true, decide_eq_true_eq]; omega),
        if_pos rfl, if_pos (by omega)]
      have harith : (0xC0 + c.toNat / 0x40 - 0xC0) * 0x40 + (0x80 + c.toNat % 0x40 - 0x80) =
          c.toNat := by omega
      rw [harith, hofn]
    · by_cases h3 : c.toNat < 0x10000
      · rw [utf8EncodeChar, if_neg h1, if_neg h2, if_pos h3, List.cons_append,
          List.cons_append, List.cons_append, List.nil_append]
        rw [utf8Run, if_neg (by omega), if_neg (by omega), if_neg (by omega), if_pos (by omega)]
        rw [utf8Run, if_pos (by simp only [utf8Cont, Bool.and_eq_true, decide_eq_true_eq]; omega),
          if_neg (by omega)]
        rw [utf8Run, if_pos (by simp only [utf8Cont, Bool.and_eq_true, decide_eq_true_eq]; omega),
          if_pos (by omega), if_pos (by omega)]
        have harith : ((0xE0 + c.toNat / 0x1000 - 0xE0) * 0x40 +
            (0x80 + c.toNat / 0x40 % 0x40 - 0x80)) * 0x40 + (0x80 + c.toNat % 0x40 - 0x80) =
            c.toNat := by omega
        rw [harith, hofn]
      · rw [utf8EncodeChar, if_neg h1, if_neg h2, if_neg h3, List.cons_append,
          List.cons_append, List.cons_append, List.cons_append, List.nil_append]
        rw [utf8Run, if_neg (by omega), if_neg (by omega), if_neg (by omega),
          if_neg (by omega), if_pos (by omega)]
        rw [utf8Run, if_pos (by simp only [utf8Cont, Bool.and_eq_true, decide_eq_true_eq]; omega),
          if_neg (by omega)]
        rw [utf8Run, if_pos (by simp only [utf8Cont, Bool.and_eq_true, decide_eq_true_eq]; omega),
          if_neg (by omega)]
        rw [utf8Run, if_pos (by simp only [utf8Cont, Bool.and_eq_true, decide_eq_true_eq]; omega),
          if_pos (by omega), if_pos (by omega)]
        have harith : (((0xF0 + c.toNat / 0x40000 - 0xF0) * 0x40 +
            (0x80 + c.toNat / 0x1000 % 0x40 - 0x80)) * 0x40 +
            (0x80 + c.toNat / 0x40 % 0x40 - 0x80)) * 0x40 + (0x80 + c.toNat % 0x40 - 0x80) =
            c.toNat := by omega
        rw [harith, hofn]

theorem utf8_roundtrip (s : List Char) :
    pyDecodeUtf8 (pyEncodeUtf8 s) = some s := by
  induction s with
  | nil => rfl
  | cons c cs ih =>
    have henc : pyEncodeUtf8 (c :: cs) = utf8EncodeChar c.toNat ++ pyEncodeUtf8 cs := rfl
    rw [pyDecodeUtf8, henc, utf8Run_encodeChar]
    rw [pyDecodeUtf8] at ih
    rw [ih]
    rfl

theorem pyStartsWith_iff_append (pat s : List Char) :
    pyStartsWith pat s = true ↔ ∃ t, s = pat ++ t := by
  induction pat generalizing s with
  | nil =>
    exact iff_of_true rfl ⟨s, rfl⟩
  | cons p ps ih =>
    cases s with
    | nil =>
      simp only [pyStartsWith, List.cons_append]
      constructor
      · intro h
        exact absurd h (by simp)
      · rintro ⟨t, ht⟩
        exact absurd ht (by simp)
    | cons c cs =>
      simp only [pyStartsWith, Bool.and_eq_true, beq_iff_eq, ih, List.cons_append,
        List.cons.injEq]
      constructor
      · rintro ⟨rfl, t, rfl⟩
        exact ⟨t, rfl, rfl⟩
      · rintro ⟨t, rfl, rfl⟩
        exact ⟨rfl, t, rfl⟩

theorem pyContains_of_pyStartsWith {pat s : List Char} (h : pyStartsWith pat s = true) :
    pyContains pat s = true := by
  cases s with
  | nil =>
    cases pat with
    | nil => rfl
    | cons p ps => simp [pyStartsWith] at h
  | cons c cs => simp [pyContains, h]

theorem find?_append_none {α : Type} {p : α → Bool} {pre : List α}
    (h : ∀ x ∈ pre, p x = false) (l : List α) :
    (pre ++ l).find? p = l.find? p := by
  induction pre with
  | nil => rfl
  | cons a as ih =>
    have ha : p a = false := h a (by simp)
    rw [List.cons_append, List.find?_cons_of_neg _ (by simp [ha]), ih]
    intro x hx
    exact h x (by simp [hx])

theorem pySplitEqTail_of_file1 {l : List Char} (h : pyStartsWith file1Marker l = true) :
    pySplitEqTail l = l.drop file1Marker.length := by
  obtain ⟨t, rfl⟩ := (pyStartsWith_iff_append file1Marker l).mp h
  show pySplitEqTail ('F' :: 'i' :: 'l' :: 'e' :: '1' :: '=' :: t) = _
  simp [pySplitEqTail, file1Marker]

/-- Claim C1: for every byte input whose UTF-8 decoding begins with the
literal marker `#EXTM3U`, `resolve_stream_url` scans the lines in order and
returns the first non-empty line that does not begin with `#`, verbatim
(`m3uLineHit` is exactly the test of tunein_api.py line 101); if no such
line exists, it returns the full decoded text. -/
theorem C1_resolve_m3u (bs : List Nat) (s : List Char)
    (hdec : pyDecodeUtf8 bs = some s)
    (hm : pyStartsWith extm3uMarker s = true) :
    (∀ (l : List Char) (pre suf : List (List Char)),
        pySplitlines s = pre ++ l :: suf →
        m3uLineHit l = true →
        (∀ l' ∈ pre, m3uLineHit l' = false) →
        resolve_stream_url_bytes bs = some l) ∧
    ((∀ l ∈ pySplitlines s, m3uLineHit l = false) →
        resolve_stream_url_bytes bs = some s) := by
  have hbytes : resolve_stream_url_bytes bs = some (resolve_stream_url s) := by
    rw [resolve_stream_url_bytes, hdec]
    rfl
  constructor
  · intro l pre suf hsplit hl hpre
    rw [hbytes, resolve_stream_url, if_pos hm, hsplit, find?_append_none hpre,
      List.find?_cons_of_pos _ hl]
  · intro hnone
    rw [hbytes, resolve_stream_url, if_pos hm, List.find?_eq_none.mpr]
    intro x hx
    simp [hnone x hx]

/-- Concrete check of `C1_resolve_m3u` on spec Example 1. -/
theorem C1_resolve_m3u_witness :
    resolve_stream_url_bytes (pyEncodeUtf8 example1Text) = some example1Url :=
  (C1_resolve_m3u (pyEncodeUtf8 example1Text) example1Text (by decide) (by decide)).1
    example1Url [example1Line1, example1Line2] [] (by decide) (by decide) (by decide)

/-- Claim C2: for every byte input whose UTF-8 decoding begins with
`[playlist]` (and not with `#EXTM3U`), `resolve_stream_url` returns the
remainder of the first line beginning with `File1=` after stripping that
six-character marker, with no other transformation; if no such line exists,
it returns the full decoded text. -/
theorem C2_resolve_pls (bs : List Nat) (s : List Char)
    (hdec : pyDecodeUtf8 bs = some s)
    (hnm3u : pyStartsWith extm3uMarker s = false)
    (hpls : pyStartsWith plsMarker s = true) :
    (∀ (l : List Char) (pre suf : List (List Char)),
        pySplitlines s = pre ++ l :: suf →
        plsLineHit l = true →
        (∀ l' ∈ pre, plsLineHit l' = false) →
        resolve_stream_url_bytes bs = some (l.drop file1Marker.length)) ∧
    ((∀ l ∈ pySplitlines s, plsLineHit l = false) →
        resolve_stream_url_bytes bs = some s) := by
  have hbytes : resolve_stream_url_bytes bs = some (resolve_stream_url s) := by
    rw [resolve_stream_url_bytes, hdec]
    rfl
  constructor
  · intro l pre suf hsplit hl hpre
    rw [hbytes, resolve_stream_url, if_neg (by simp [hnm3u]), if_pos hpls, hsplit,
      find?_append_none hpre, List.find?_cons_of_pos _ hl]
    show some (pySplitEqTail l) = some (l.drop file1Marker.length)
    rw [pySplitEqTail_of_file1 hl]
  · intro hnone
    rw [hbytes, resolve_stream_url, if_neg (by simp [hnm3u]), if_pos hpls,
      List.find?_eq_none.mpr]
    intro x hx
    simp [hnone x hx]

/-- Concrete check of `C2_resolve_pls` on spec Example 2. -/
theorem C2_resolve_pls_witness :
    resolve_stream_url_bytes (pyEncodeUtf8 example2Text) = some example2Url := by
  have h := (C2_resolve_pls (pyEncodeUtf8 example2Text) example2Text (by decide) (by decide)
      (by decide)).1
    example2FileLine [example2Line1, example2Line2] [] (by decide) (by decide) (by decide)
  exact h.trans (by decide)

/-- Claim C3: for every byte input whose UTF-8 decoding begins with neither
`#EXTM3U` nor `[playlist]`, `resolve_stream_url` returns the entire decoded
text unchanged. -/
theorem C3_resolve_passthrough (bs : List Nat) (s : List Char)
    (hdec : pyDecodeUtf8 bs = some s)
    (h1 : pyStartsWith extm3uMarker s = false)
    (h2 : pyStartsWith plsMarker s = false) :
    resolve_stream_url_bytes bs = some s := by
  rw [resolve_stream_url_bytes, hdec]
  show some (resolve_stream_url s) = some s
  rw [resolve_stream_url, if_neg (by simp [h1]), if_neg (by simp [h2])]

/-- Concrete check of `C3_resolve_passthrough` on spec Example 3. -/
theorem C3_resolve_passthrough_witness :
    resolve_stream_url_bytes (pyEncodeUtf8 example3Text) = some example3Text :=
  C3_resolve_passthrough (pyEncodeUtf8 example3Text) example3Text (by decide) (by decide)
    (by decide)

/-- Claim C4 counterexample: on the byte input `[0xFF]`, which is not valid
UTF-8, `resolve_stream_url` returns no string at all: the decode at
tunein_api.py line 97 raises `UnicodeDecodeError`, so the function is not
total over all byte inputs. -/
theorem C4_not_total_counterexample :
    resolve_stream_url_bytes invalidUtf8Input = none := by decide

/-- Claim C4 (amended): `resolve_stream_url` is pure and returns a string for
exactly those byte inputs whose UTF-8 decoding succeeds, and there it is the
text resolver applied to the decoded text; on other inputs the decode of
line 97 raises `UnicodeDecodeError`. -/
theorem C4_total_on_valid_utf8 (bs : List Nat) :
    (resolve_stream_url_bytes bs).isSome = (pyDecodeUtf8 bs).isSome ∧
    ∀ s, pyDecodeUtf8 bs = some s →
      resolve_stream_url_bytes bs = some (resolve_stream_url s) := by
  constructor
  · rw [resolve_stream_url_bytes]
    cases pyDecodeUtf8 bs <;> rfl
  · intro s h
    rw [resolve_stream_url_bytes, h]
    rfl

/-- Concrete check of `C4_total_on_valid_utf8`. -/
theorem C4_total_on_valid_utf8_witness :
    resolve_stream_url_bytes (pyEncodeUtf8 plainUrl) = some (resolve_stream_url plainUrl) :=
  (C4_total_on_valid_utf8 (pyEncodeUtf8 plainUrl)).2 plainUrl (by decide)

/-- Claim C9: `resolve_stream_url` is idempotent on already-resolved plain
URLs: if a resolver output contains neither playlist marker, re-encoding it
as UTF-8 and resolving again returns it unchanged. -/
theorem C9_resolve_idempotent (x : List Nat) (r : List Char)
    (hres : resolve_stream_url_bytes x = some r)
    (hm1 : pyContains extm3uMarker r = false)
    (hm2 : pyContains plsMarker r = false) :
    resolve_stream_url_bytes (pyEncodeUtf8 r) = some r := by
  have h1 : pyStartsWith extm3uMarker r = false := by
    cases hsw : pyStartsWith extm3uMarker r
    · rfl
    · rw [pyContains_of_pyStartsWith hsw] at hm1
      cases hm1
  have h2 : pyStartsWith plsMarker r = false := by
    cases hsw : pyStartsWith plsMarker r
    · rfl
    · rw [pyContains_of_pyStartsWith hsw] at hm2
      cases hm2
  rw [resolve_stream_url_bytes, utf8_roundtrip]
  show some (resolve_stream_url r) = some r
  rw [resolve_stream_url, if_neg (by simp [h1]), if_neg (by simp [h2])]

/-- Concrete check of `C9_resolve_idempotent`. -/
theorem C9_resolve_idempotent_witness :
    resolve_stream_url_bytes (pyEncodeUtf8 plainUrl) = some plainUrl :=
  C9_resolve_idempotent (pyEncodeUtf8 plainUrl) plainUrl (by decide) (by decide) (by decide)

/-- Claim C5 counterexample: with a successful HTTP response whose body is
malformed XML, `search_stations` does not return the empty list — the
`ParseError` raised by `ET.fromstring` escapes, because line 30 catches only
`requests.RequestException`. -/
theorem C5_parse_failure_counterexample :
    (search_stations [] failingFromstring (HttpOutcome.response 200 malformedXmlBody)).result
        = Except.error PyError.parseError ∧
    (search_stations [] failingFromstring (HttpOutcome.response 200 malformedXmlBody)).result
        ≠ Except.ok [] :=
  ⟨rfl, fun h => Except.noConfusion h⟩

/-- Claim C5 (amended): `search_stations` never raises on transport failure —
a network error (`requests.RequestException`, caught at line 30) or an HTTP
error status 4xx/5xx (raised by `raise_for_status` at line 24 as `HTTPError`,
a `RequestException`) yields the empty list; a malformed XML body instead
raises `ET.ParseError`, which propagates. -/
theorem C5_transport_failure_empty (query : List Char) (status : Nat) (body : List Nat)
    (fromstring : List Nat → Except Unit Xml)
    (herr : 400 ≤ status ∧ status < 600) :
    (search_stations query fromstring HttpOutcome.failure).result = Except.ok [] ∧
    (search_stations query fromstring (HttpOutcome.response status body)).result
      = Except.ok [] := by
  constructor
  · rfl
  · simp only [search_stations]
    rw [if_pos herr]

/-- Concrete check of `C5_transport_failure_empty` at HTTP 500 (spec
Example 5). -/
theorem C5_transport_failure_empty_witness :
    (search_stations [] failingFromstring HttpOutcome.failure).result = Except.ok [] ∧
    (search_stations [] failingFromstring (HttpOutcome.response 500 malformedXmlBody)).result
      = Except.ok [] :=
  C5_transport_failure_empty [] 500 malformedXmlBody failingFromstring (by omega)

/-- Claim C8: on a successful (2xx) response whose body parses, `search_stations`
returns one `Station` per `outline` element with attribute `type="audio"`,
in document order (no deduplication, no ranking — one list entry per filter
hit), and every station field is copied verbatim from the same-named
attribute, absent attributes mapping to `none`. -/
theorem C8_search_extracts_stations (query : List Char) (status : Nat) (body : List Nat)
    (fromstring : List Nat → Except Unit Xml) (root : Xml)
    (h2xx : 200 ≤ status ∧ status < 300)
    (hparse : fromstring body = Except.ok root) :
    (search_stations query fromstring (HttpOutcome.response status body)).result =
      Except.ok (((Xml.descendants root).filter isAudioOutline).map stationOfOutline) ∧
    ∀ e : Xml,
      (stationOfOutline e).text = getAttr e.attrs textKey ∧
      (stationOfOutline e).URL = getAttr e.attrs urlKey ∧
      (stationOfOutline e).bitrate = getAttr e.attrs bitrateKey ∧
      (stationOfOutline e).reliability = getAttr e.attrs reliabilityKey ∧
      (stationOfOutline e).guide_id = getAttr e.attrs guideIdKey ∧
      (stationOfOutline e).subtext = getAttr e.attrs subtextKey ∧
      (stationOfOutline e).genre_id = getAttr e.attrs genreIdKey ∧
      (stationOfOutline e).formats = getAttr e.attrs formatsKey ∧
      (stationOfOutline e).item = getAttr e.attrs itemKey ∧
      (stationOfOutline e).image = getAttr e.attrs imageKey ∧
      (stationOfOutline e).current_track = getAttr e.attrs currentTrackKey ∧
      (stationOfOutline e).now_playing_id = getAttr e.attrs nowPlayingIdKey ∧
      (stationOfOutline e).preset_id = getAttr e.attrs presetIdKey := by
  constructor
  · simp only [search_stations]
    rw [if_neg (by omega), hparse]
    rfl
  · intro e
    exact ⟨rfl, rfl, rfl, rfl, rfl, rfl, rfl, rfl, rfl, rfl, rfl, rfl, rfl⟩

/-- Concrete check of `C8_search_extracts_stations` on spec Example 4: one
`<outline type="audio" text="X" URL="u">` yields exactly one station with
`text = "X"`, `URL = "u"` and every other field absent. -/
theorem C8_search_extracts_stations_witness :
    (search_stations [] (fun _ => Except.ok example4Root)
        (HttpOutcome.response 200 malformedXmlBody)).result =
      Except.ok [stationOfOutline example4Outline] ∧
    (stationOfOutline example4Outline).text = some xTextVal ∧
    (stationOfOutline example4Outline).URL = some uUrlVal ∧
    (stationOfOutline example4Outline).bitrate = none := by
  have h := (C8_search_extracts_stations [] 200 malformedXmlBody
      (fun _ => Except.ok example4Root) example4Root (by omega) rfl).1
  exact ⟨h.trans (by rfl), by decide, by decide, by decide⟩

/-- Claim C10 (implicit frame effect): whenever the HTTP request of
`search_stations` succeeds (no network error and no 4xx/5xx status, so
`raise_for_status` returns), lines 26-27 write the raw response bytes to the
file `response_content.xml` before parsing — the write happens whether or not
the body then parses; on transport failure nothing is written. -/
theorem C10_writes_response_file (query : List Char) (status : Nat) (body : List Nat)
    (fromstring : List Nat → Except Unit Xml)
    (hok : ¬(400 ≤ status ∧ status < 600)) :
    (search_stations query fromstring (HttpOutcome.response status body)).responseFileWritten
      = some body ∧
    (search_stations query fromstring HttpOutcome.failure).responseFileWritten = none := by
  constructor
  · simp only [search_stations]
    rw [if_neg hok]
    cases fromstring body <;> rfl
  · rfl

/-- Concrete check of `C10_writes_response_file`: the file is written even
when parsing subsequently fails. -/
theorem C10_writes_response_file_witness :
    (search_stations [] failingFromstring
        (HttpOutcome.response 200 malformedXmlBody)).responseFileWritten
      = some malformedXmlBody :=
  (C10_writes_response_file [] 200 malformedXmlBody failingFromstring (by omega)).1

/-- Claim C6 counterexample: a corrupted settings file does not fall back to
the defaults — `json.load` raises `json.JSONDecodeError` at line 300 and the
handler at line 322 catches only `FileNotFoundError`, so `load_settings`
raises instead of substituting the defaults (whatever a station fetch would
return; shown at the empty fetch). -/
theorem C6_corrupt_settings_counterexample :
    load_settings initSettings [] SettingsFile.corrupt
        = Except.error SettingsError.jsonDecodeError ∧
    load_settings initSettings [] SettingsFile.corrupt ≠ Except.ok defaultSettings :=
  ⟨rfl, fun h => Except.noConfusion h⟩

/-- Claim C6 (amended): an absent settings file falls back to the documented
defaults (volume 0.5, rate 1.0, index 0, not playing, category "classical")
without raising, whatever the station fetch would return; with a well-formed
settings file every missing key is replaced by its documented default, but
the call returns without raising only when the channel selection of lines
312-314 — still inside the `try` — succeeds, which needs the saved index to
be a valid Python index into the freshly fetched station list (the default
index 0 succeeds exactly on a non-empty fetch, and raises `IndexError` on an
empty one); a corrupted file propagates `json.JSONDecodeError`. -/
theorem C6_load_settings_defaults :
    (∀ fetched : List Station,
      load_settings initSettings fetched SettingsFile.absent
        = Except.ok defaultSettings) ∧
    (∀ (c : Station) (cs : List Station),
      load_settings initSettings (c :: cs) (SettingsFile.object [])
        = Except.ok defaultSettings) ∧
    load_settings initSettings [] (SettingsFile.object [])
        = Except.error SettingsError.indexError ∧
    ∀ (entries : List (List Char × JVal)) (fetched : List Station)
      (st : PlayerSettings),
      load_settings initSettings fetched (SettingsFile.object entries) = Except.ok st →
      (entries.find? (fun p => p.1 == volumeKey) = none → st.volume = JVal.jnum (1/2)) ∧
      (entries.find? (fun p => p.1 == playbackRateKey) = none →
        st.playbackRate = JVal.jnum 1) ∧
      (entries.find? (fun p => p.1 == channelIndexKey) = none →
        st.currentChannelIndex = JVal.jnum 0) ∧
      (entries.find? (fun p => p.1 == isPlayingKey) = none →
        st.isPlaying = JVal.jbool false) ∧
      (entries.find? (fun p => p.1 == categoryKey) = none →
        st.currentCategory = JVal.jstr classicalCategory) := by
  refine ⟨fun fetched => rfl, fun c cs => rfl, rfl, ?_⟩
  intro entries fetched st hst
  simp only [load_settings] at hst
  split at hst
  · exact Except.noConfusion hst
  · split at hst
    · exact Except.noConfusion hst
    · injection hst with h
      subst h
      refine ⟨?_, ?_, ?_, ?_, ?_⟩ <;>
        intro hfind <;>
        simp only [jget, hfind]

/-- Concrete check of `C6_load_settings_defaults`: absent file, and an
all-keys-missing object with a one-station fetch, both give exactly the
defaults; the empty fetch under the default index raises. -/
theorem C6_load_settings_defaults_witness :
    load_settings initSettings [] SettingsFile.absent = Except.ok defaultSettings ∧
    load_settings initSettings [stationOfOutline example4Outline] (SettingsFile.object [])
      = Except.ok defaultSettings ∧
    defaultSettings.volume = JVal.jnum (1/2) ∧
    defaultSettings.playbackRate = JVal.jnum 1 :=
  ⟨C6_load_settings_defaults.1 [],
   C6_load_settings_defaults.2.1 (stationOfOutline example4Outline) [],
   (C6_load_settings_defaults.2.2.2 [] [stationOfOutline example4Outline] defaultSettings
       (C6_load_settings_defaults.2.1 (stationOfOutline example4Outline) [])).1 rfl,
   (C6_load_settings_defaults.2.2.2 [] [stationOfOutline example4Outline] defaultSettings
       (C6_load_settings_defaults.2.1 (stationOfOutline example4Outline) [])).2.1 rfl⟩

/-- Claim C7 counterexample: on the initial-load path an empty station list
does not trigger the noise fallback — `__init__` raises `ValueError`, catches
it and shows an error dialog instead. -/
theorem C7_initial_load_counterexample :
    initialChannelLoad [] 0 = PlayerAction.showError noChannelsMsg ∧
    initialChannelLoad [] 0 ≠ PlayerAction.playNoise :=
  ⟨rfl, fun h => PlayerAction.noConfusion h⟩

/-- Claim C7 (amended): when a search yields an empty station list,
`category_selected` routes to noise playback, but the initial load in
`__init__` instead shows an error dialog and never reaches the noise
fallback. -/
theorem C7_empty_search_routing (channels : List Station)
    (hempty : channels = []) :
    category_selected channels = PlayerAction.playNoise ∧
    initialChannelLoad channels 0 = PlayerAction.showError noChannelsMsg := by
  subst hempty
  exact ⟨rfl, rfl⟩

/-- Concrete check of `C7_empty_search_routing`. -/
theorem C7_empty_search_routing_witness :
    category_selected [] = PlayerAction.playNoise ∧
    initialChannelLoad [] 0 = PlayerAction.showError noChannelsMsg :=
  C7_empty_search_routing [] rfl

end MediaAI
